import Mathlib

/-!
Shallow embedding of `SceneManager.cpp` (CS-330 final project scene renderer).

The embedding models:
* the texture table `m_textureIDs` / `m_loadedTextures` as the list of its
  loaded entries, in insertion order (the loaded prefix of the 16-slot array);
* the material table `m_objectMaterials` as a list of `OBJECT_MATERIAL`;
* the lookup routines `FindTextureID`, `FindTextureSlot`, `FindMaterial`
  as structural recursions equivalent to the source while-loops that scan
  from index 0 and stop at the first match;
* `CreateGLTexture` as a state transformer whose stbi image-decode result is
  an explicit input (`none` = decode failure, `some ch` = decoded image with
  `ch` color channels) and whose fresh GL texture name is an explicit input;
* `DestroyGLTextures` and `SetShaderTexture` as emitters of the graphics-API
  calls they issue;
* the rotation helpers `ucRot` / `rotate` over the real numbers;
* `RenderScene` as the trace of uniform assignments and draw calls it issues.

Machine floats are idealised as real numbers; string comparison
(`std::string::compare(...) == 0`) is exact string equality.
-/

/-- One entry of the `m_textureIDs` table: a tag string and a GL texture ID. -/
structure TextureEntry where
  tag : String
  ID : Int
  deriving DecidableEq, Repr

/-- The loaded portion of the texture table, in insertion order.
`m_loadedTextures` is the length of this list. -/
abbrev TextureTable := List TextureEntry

/-- `glm::vec3` idealised as a real triple. -/
abbrev Vec3 := ℝ × ℝ × ℝ

/-- The `OBJECT_MATERIAL` record from the source header. -/
structure OBJECT_MATERIAL where
  ambientColor : Vec3
  ambientStrength : ℝ
  diffuseColor : Vec3
  specularColor : Vec3
  shininess : ℝ
  tag : String

/-- `SceneManager::FindTextureID`: scan the loaded entries from index 0,
stop at the first entry whose tag compares equal, return its ID;
return the initial value -1 when no entry matches. -/
def FindTextureID (table : TextureTable) (tag : String) : Int :=
  match table with
  | [] => -1
  | e :: rest => if e.tag = tag then e.ID else FindTextureID rest tag

/-- Auxiliary recursion for `FindTextureSlot`, carrying the current index. -/
def FindTextureSlotAux (table : TextureTable) (tag : String) (index : Int) : Int :=
  match table with
  | [] => -1
  | e :: rest => if e.tag = tag then index else FindTextureSlotAux rest tag (index + 1)

/-- `SceneManager::FindTextureSlot`: scan the loaded entries from index 0,
stop at the first entry whose tag compares equal, return its slot index;
return the initial value -1 when no entry matches. -/
def FindTextureSlot (table : TextureTable) (tag : String) : Int :=
  FindTextureSlotAux table tag 0

/-- The body of the `FindMaterial` while-loop: scan from the front, and on the
first entry whose tag compares equal, copy its five shading fields (but not
its tag) into the output parameter; when no entry matches, the output
parameter is returned unchanged. -/
def FindMaterialLoop (mats : List OBJECT_MATERIAL) (tag : String)
    (material : OBJECT_MATERIAL) : OBJECT_MATERIAL :=
  match mats with
  | [] => material
  | m :: rest =>
    if m.tag = tag then
      { material with
        ambientColor := m.ambientColor
        ambientStrength := m.ambientStrength
        diffuseColor := m.diffuseColor
        specularColor := m.specularColor
        shininess := m.shininess }
    else FindMaterialLoop rest tag material

/-- `SceneManager::FindMaterial`: returns `false` immediately when the
material list is empty; otherwise runs the scan loop and then executes the
final `return(true)` of the source, whether or not the loop found a match.
The returned pair is (return value, state of the output parameter). -/
def FindMaterial (mats : List OBJECT_MATERIAL) (tag : String)
    (material : OBJECT_MATERIAL) : Bool × OBJECT_MATERIAL :=
  if mats.length = 0 then (false, material)
  else (true, FindMaterialLoop mats tag material)

/-- `SceneManager::CreateGLTexture`, as a transformer of the texture table.
`decoded` is the result of `stbi_load`: `none` when the image cannot be
decoded, `some ch` when it decodes with `ch` color channels. `newID` is the
texture name produced by `glGenTextures`. On a decoded image with 3 or 4
channels the source uploads the pixels, appends `{ID := newID, tag := tag}`
at index `m_loadedTextures` and increments the counter, returning `true`;
on any other channel count it returns `false` with the table unchanged; on
decode failure it returns `false` with the table unchanged. -/
def CreateGLTexture (table : TextureTable) (decoded : Option Nat)
    (newID : Int) (tag : String) : Bool × TextureTable :=
  match decoded with
  | none => (false, table)
  | some ch =>
    if ch = 3 ∨ ch = 4 then (true, table ++ [{ tag := tag, ID := newID }])
    else (false, table)

/-- A sequence of `CreateGLTexture` calls applied to the empty table of a
freshly constructed `SceneManager`; each element carries that call's decode
result, fresh texture name, and tag. -/
def CreateGLTextureRuns (calls : List (Option Nat × Int × String)) : TextureTable :=
  calls.foldl (fun table c => (CreateGLTexture table c.1 c.2.1 c.2.2).2) []

/-- Calls to the graphics API relevant to texture teardown. -/
inductive GLCall where
  | genTextures (count : Nat)
  | deleteTextures (count : Nat)
  deriving DecidableEq, Repr

/-- `SceneManager::DestroyGLTextures`: for every loaded entry `i` the source
executes `glGenTextures(1, &m_textureIDs[i].ID)` (allocating a fresh texture
name and overwriting the stored ID); it never calls `glDeleteTextures`.
The result is the list of graphics-API calls issued. -/
def DestroyGLTextures (table : TextureTable) : List GLCall :=
  table.map fun _ => GLCall.genTextures 1

/-- Shader-uniform calls issued through the shader manager. -/
inductive ShaderCall where
  | setIntValue (uniformName : String) (value : Int)
  | setSampler2DValue (uniformName : String) (value : Int)
  deriving DecidableEq, Repr

/-- `SceneManager::SetShaderTexture` (with a non-null shader manager): sets
the `bUseTexture` uniform to true (passed as the int 1) and then passes the
result of `FindTextureSlot` — the slot index, or -1 when the tag is absent —
as the `objectTexture` sampler value. -/
def SetShaderTexture (table : TextureTable) (textureTag : String) : List ShaderCall :=
  [ShaderCall.setIntValue "bUseTexture" 1,
   ShaderCall.setSampler2DValue "objectTexture" (FindTextureSlot table textureTag)]

/-- `ucRot`: the shared 2D rotation primitive. `(hUc, vUc)` is a unit-circle
coordinate (cosine, sine); the pair `(hP, vP)` is replaced by
`(vP * -vUc + hP * hUc, hP * vUc + vP * hUc)`. The result models the two
output parameters after the call. -/
def ucRot (hUc vUc hP vP : ℝ) : ℝ × ℝ :=
  (vP * -vUc + hP * hUc, hP * vUc + vP * hUc)

/-- `rotate`: rotate the position `(xPos, yPos, zPos)` by the angles
`x`, `y`, `z` given in degrees, in the source order: first by `z` on the
(xPos, yPos) pair, then by the negation of `y` on the (xPos, zPos) pair,
then by `x` on the (yPos, zPos) pair, each through `ucRot`; each angle is
scaled by the literal constant `3.14159 / 180.0` before taking cosine and
sine. The result models the three output parameters after the call. -/
noncomputable def rotate (xPos yPos zPos x y z : ℝ) : ℝ × ℝ × ℝ :=
  let zRad := z * (3.14159 / 180)
  let p1 := ucRot (Real.cos zRad) (Real.sin zRad) xPos yPos
  let yRad := y * (3.14159 / 180)
  let p2 := ucRot (Real.cos (-yRad)) (Real.sin (-yRad)) p1.1 zPos
  let xRad := x * (3.14159 / 180)
  let p3 := ucRot (Real.cos xRad) (Real.sin xRad) p1.2 p2.2
  (p2.1, p3.1, p3.2)

/-- The claim C2 reading of `rotate`, with the degree-to-radian conversion
taken literally as multiplication by `π / 180` instead of the source
constant `3.14159 / 180`. Only the conversion factor differs from `rotate`. -/
noncomputable def rotateSpecPi (xPos yPos zPos x y z : ℝ) : ℝ × ℝ × ℝ :=
  let zRad := z * (Real.pi / 180)
  let p1 := ucRot (Real.cos zRad) (Real.sin zRad) xPos yPos
  let yRad := y * (Real.pi / 180)
  let p2 := ucRot (Real.cos (-yRad)) (Real.sin (-yRad)) p1.1 zPos
  let xRad := x * (Real.pi / 180)
  let p3 := ucRot (Real.cos xRad) (Real.sin xRad) p1.2 p2.2
  (p2.1, p3.1, p3.2)

/-- A textbook counter-clockwise 2D rotation of the pair `p` by the angle
`theta` (radians), written independently of the source primitive. -/
noncomputable def rot2 (theta : ℝ) (p : ℝ × ℝ) : ℝ × ℝ :=
  (p.1 * Real.cos theta - p.2 * Real.sin theta,
   p.1 * Real.sin theta + p.2 * Real.cos theta)

/-- The material list built by `SceneManager::DefineObjectMaterials`, in
push-back order. -/
noncomputable def DefineObjectMaterials : List OBJECT_MATERIAL :=
  [{ ambientColor := (0.8, 0.8, 0.8), ambientStrength := 100.5,
     diffuseColor := (0.7, 0.7, 0.8), specularColor := (0.3, 0.5, 0.8),
     shininess := 100.5, tag := "default_material" },
   { ambientColor := (1.0, 1.0, 1.0), ambientStrength := 1.0,
     diffuseColor := (0.8, 0.7, 0.8), specularColor := (0.05, 0.05, 0.05),
     shininess := 1.1, tag := "table_material" },
   { ambientColor := (0.99, 0.99, 0.99), ambientStrength := 0.99,
     diffuseColor := (0.99, 0.99, 0.99), specularColor := (0.1, 0.1, 0.1),
     shininess := 100.0, tag := "paper_material" },
   { ambientColor := (0.8, 0.8, 0.8), ambientStrength := 100.5,
     diffuseColor := (0.7, 0.7, 0.8), specularColor := (0.3, 0.5, 0.8),
     shininess := 100.5, tag := "wire_material" },
   { ambientColor := (0.5, 0.5, 0.5), ambientStrength := 1.0,
     diffuseColor := (0.9, 0.5, 0.5), specularColor := (0.1, 0.1, 0.9),
     shininess := 1.0, tag := "rubiks_material" }]

/-- The primitive mesh kinds drawn by `RenderScene`. -/
inductive ShapeKind where
  | plane
  | box
  | cylinder
  | taperedCylinder
  | sphere
  | cone
  | torus
  deriving DecidableEq, Repr

/-- One step of the uniform/draw protocol that `RenderScene` issues through
the shader manager and the mesh object. `setTransform` stands for
`SetTransformations` (the `model` matrix uniform built from the listed scale,
rotation and position values); `setColor` for `SetShaderColor`
(`bUseTexture := false` and the `objectColor` uniform); `setTexture` for
`SetShaderTexture` (`bUseTexture := true` and the `objectTexture` sampler);
`setUV` for `SetTextureUVScale` (the `UVscale` uniform); `setMaterial` for
`SetShaderMaterial` (the five `material.*` uniforms of the named material);
`draw` for the mesh draw call. -/
inductive GLEvent where
  | setTransform (scale : Vec3) (xDeg yDeg zDeg : ℝ) (pos : Vec3)
  | setColor (r g b a : ℝ)
  | setTexture (tag : String)
  | setUV (u v : ℝ)
  | setMaterial (tag : String)
  | draw (shape : ShapeKind)

/-- The desk plane: the first drawn shape of `RenderScene`. -/
noncomputable def deskEvents : List GLEvent :=
  [GLEvent.setTransform (20, 1, 20) 0 0 0 (0, 0, 0),
   GLEvent.setColor 1 1 1 1,
   GLEvent.setTexture "shadow",
   GLEvent.setUV 1.1 1.1,
   GLEvent.setMaterial "table_material",
   GLEvent.draw ShapeKind.plane]

/-- The five pencil cylinders (loop `for i in 0..4` over the `...1` arrays);
each position is pre-rotated by the pencil orientation (50, 20, 245) and
offset by the pencil base position (0.2, 2.8, 5.4). -/
noncomputable def pencilCylinderEvents : List GLEvent :=
  (List.range 5).flatMap fun i =>
    let xSz := ([0.3, 0.4, 0.25, 0.4, 0.075] : List ℝ).getD i 0
    let ySz := ([0.4, 0.6, 11.2, 10.8, 0.2] : List ℝ).getD i 0
    let zSz := ([0.3, 0.4, 0.25, 0.4, 0.075] : List ℝ).getD i 0
    let xR := ([0, 0, 0, 0, 0] : List ℝ).getD i 0
    let yR := ([0, 0, 0, 0, 0] : List ℝ).getD i 0
    let zR := ([0, 0, 0, 0, 0] : List ℝ).getD i 0
    let xP := ([0, 0, 0, 0, 0] : List ℝ).getD i 0
    let yP := ([0, 0.4, 1.0, 1.4, 14.8] : List ℝ).getD i 0
    let zP := ([0, 0, 0, 0, 0] : List ℝ).getD i 0
    let r := ([0.9, 0.1, 0.1, 0.7, 0.1] : List ℝ).getD i 0
    let g := ([0.9, 0.1, 0.1, 0.7, 0.1] : List ℝ).getD i 0
    let b := ([0.9, 0.1, 0.1, 0.7, 0.1] : List ℝ).getD i 0
    let a := ([0.9, 0.9, 0.9, 0.5, 0.9] : List ℝ).getD i 0
    let p := rotate xP yP zP 50 20 245
    [GLEvent.setTransform (xSz, ySz, zSz) (50 + xR) (20 + yR) (245 + zR)
       (0.2 + p.1, 2.8 + p.2.1, 5.4 + p.2.2),
     GLEvent.setColor r g b a,
     GLEvent.draw ShapeKind.cylinder]

/-- The tapered cylinder of the pencil (the `...2` arrays, one element). -/
noncomputable def taperedCylinderEvents : List GLEvent :=
  let p := rotate 0 12.2 0 50 20 245
  [GLEvent.setTransform (0.4, 2.2, 0.4) (50 + 0) (20 + 0) (245 + 0)
     (0.2 + p.1, 2.8 + p.2.1, 5.4 + p.2.2),
   GLEvent.setColor 0.1 0.1 0.1 0.9,
   GLEvent.draw ShapeKind.taperedCylinder]

/-- The two pencil-clip boxes (loop over the `...3` arrays); the y position
is first shifted by half the y size to compensate for the box center. -/
noncomputable def clipBoxEvents : List GLEvent :=
  (List.range 2).flatMap fun i =>
    let xSz := ([0.45, 0.4] : List ℝ).getD i 0
    let ySz := ([0.9, 3.4] : List ℝ).getD i 0
    let zSz := ([0.3, 0.12] : List ℝ).getD i 0
    let xR := ([0, 0] : List ℝ).getD i 0
    let yR := ([0, 0] : List ℝ).getD i 0
    let zR := ([0, 0] : List ℝ).getD i 0
    let xP := ([0, 0] : List ℝ).getD i 0
    let yP := ([2.25, 2.2] : List ℝ).getD i 0 + ySz / 2
    let zP := ([0.4, 0.6] : List ℝ).getD i 0
    let p := rotate xP yP zP 50 20 245
    [GLEvent.setTransform (xSz, ySz, zSz) (50 + xR) (20 + yR) (245 + zR)
       (0.2 + p.1, 2.8 + p.2.1, 5.4 + p.2.2),
     GLEvent.setColor 1 0.4 0.1 0.9,
     GLEvent.draw ShapeKind.box]

/-- The pencil-clip sphere (the `...4` arrays, one element). -/
noncomputable def clipSphereEvents : List GLEvent :=
  let p := rotate 0 5.3 0.52 50 20 245
  [GLEvent.setTransform (0.2, 0.2, 0.1) (50 + 0) (20 + 0) (245 + 0)
     (0.2 + p.1, 2.8 + p.2.1, 5.4 + p.2.2),
   GLEvent.setColor 1 0.4 0.1 0.7,
   GLEvent.draw ShapeKind.sphere]

/-- The pencil-point cone (the `...5` arrays, one element). -/
noncomputable def pencilConeEvents : List GLEvent :=
  let p := rotate 0 14.4 0 50 20 245
  [GLEvent.setTransform (0.2, 0.6, 0.2) (50 + 0) (20 + 0) (245 + 0)
     (0.2 + p.1, 2.8 + p.2.1, 5.4 + p.2.2),
   GLEvent.setColor 0.1 0.1 0.1 0.9,
   GLEvent.draw ShapeKind.cone]

/-- The notebook body box (the `...6` arrays, one element); notebook
orientation (0, 5, 0), base position (5.5, 0, 0). -/
noncomputable def notebookBoxEvents : List GLEvent :=
  let p := rotate 0 (0 + 2 / 2) 0 0 5 0
  [GLEvent.setTransform (10, 2, 14) (0 + 0) (5 + 0) (0 + 0)
     (5.5 + p.1, 0 + p.2.1, 0 + p.2.2),
   GLEvent.setColor 1 1 1 1,
   GLEvent.setTexture "pages",
   GLEvent.setUV 1 1,
   GLEvent.draw ShapeKind.box]

/-- The page plane on top of the notebook (the `...7` arrays, one element). -/
noncomputable def pagePlaneEvents : List GLEvent :=
  let p := rotate 0.1 2.02 0 0 5 0
  [GLEvent.setTransform (5, 1, 7) (0 + 0) (5 + -1) (0 + 0)
     (5.5 + p.1, 0 + p.2.1, 0 + p.2.2),
   GLEvent.setColor 1 1 1 1,
   GLEvent.setTexture "page",
   GLEvent.setUV 1 1,
   GLEvent.setMaterial "paper_material",
   GLEvent.draw ShapeKind.plane]

/-- The seventeen notebook ring tori (loop over the `...8` arrays). -/
noncomputable def ringEvents : List GLEvent :=
  (List.range 17).flatMap fun i =>
    let p := rotate (-5) (1.0 + 0.25 / 2) (13.5 / 17 * (8 - (i : ℝ))) 0 5 0
    [GLEvent.setTransform (0.25, 0.25, 0.25) (0 + 0) (5 + 0) (0 + 0)
       (5.5 + p.1, 0 + p.2.1, 0 + p.2.2),
     GLEvent.setColor 0.7 0.7 0.7 0.9,
     GLEvent.draw ShapeKind.torus]

/-- The four Rubiks-cube boxes (loop over the `...9` arrays); cube group
orientation (0, 0, 0), base position (-5.5, 0, 0). -/
noncomputable def rubiksBoxEvents : List GLEvent :=
  (List.range 4).flatMap fun i =>
    let xR := ([0, 180, 0, 90] : List ℝ).getD i 0
    let yR := ([0, 0, -90, 180] : List ℝ).getD i 0
    let zR := ([-90, 0, 0, 135] : List ℝ).getD i 0
    let xP := ([0, -3, -3, -1.5] : List ℝ).getD i 0
    let yP := ([0, 0, 0, 3] : List ℝ).getD i 0 + 3 / 2
    let zP := ([0, 1.5, -1.5, 0] : List ℝ).getD i 0
    let p := rotate xP yP zP 0 0 0
    [GLEvent.setTransform (3, 3, 3) (0 + xR) (0 + yR) (0 + zR)
       (-5.5 + p.1, 0 + p.2.1, 0 + p.2.2),
     GLEvent.setColor 1 1 1 1,
     GLEvent.setTexture "rubiks",
     GLEvent.setUV 1 1,
     GLEvent.setMaterial "rubiks_material",
     GLEvent.draw ShapeKind.box]

/-- `SceneManager::RenderScene`: the full trace of uniform assignments and
draw calls, in program order, including the two standalone
`SetShaderMaterial("default_material")` calls issued after the desk plane
and after the page plane. -/
noncomputable def RenderScene : List GLEvent :=
  deskEvents ++ [GLEvent.setMaterial "default_material"] ++
  pencilCylinderEvents ++ taperedCylinderEvents ++ clipBoxEvents ++
  clipSphereEvents ++ pencilConeEvents ++ notebookBoxEvents ++
  pagePlaneEvents ++ [GLEvent.setMaterial "default_material"] ++
  ringEvents ++ rubiksBoxEvents

/-- Classify an event for the per-draw ordering check: 0 = transform,
1 = color/texture/UV-scale, 2 = material, 3 = draw. -/
def evClass : GLEvent → Nat
  | GLEvent.setTransform _ _ _ _ _ => 0
  | GLEvent.setColor _ _ _ _ => 1
  | GLEvent.setTexture _ => 1
  | GLEvent.setUV _ _ => 1
  | GLEvent.setMaterial _ => 2
  | GLEvent.draw _ => 3

/-- Whether an event is a mesh draw call. -/
def isDraw : GLEvent → Bool
  | GLEvent.draw _ => true
  | _ => false

/-- The number of draw calls in a trace. -/
def drawCount (t : List GLEvent) : Nat :=
  (t.filter isDraw).length

/-- The number of draw calls of one shape kind in a trace. -/
def drawCountOf (s : ShapeKind) (t : List GLEvent) : Nat :=
  (t.filter fun e =>
    match e with
    | GLEvent.draw k => decide (k = s)
    | _ => false).length

/-- Split a trace into the uniform-assignment segments that precede each
draw call; each draw call ends its segment and is not itself included.
The final list element is the (possibly empty) tail after the last draw. -/
def segmentsAux : List GLEvent → List GLEvent → List (List GLEvent)
  | [], acc => [acc.reverse]
  | GLEvent.draw _ :: rest, acc => acc.reverse :: segmentsAux rest []
  | e :: rest, acc => segmentsAux rest (e :: acc)

/-- The per-draw segments of a trace. -/
def segments (t : List GLEvent) : List (List GLEvent) :=
  segmentsAux t []

/-- Drop a leading run of the class value `c`. -/
def dropClassRun (c : Nat) (l : List Nat) : List Nat :=
  l.dropWhile fun n => n == c

/-- The per-draw ordering asserted by the claim: within the segment before a
draw, every transform assignment precedes every color/texture assignment,
which precedes every material assignment — the class word matches the
pattern (transform)* (color/texture)* (material)*. -/
def claimedSegOrdered (s : List GLEvent) : Bool :=
  (dropClassRun 2 (dropClassRun 1 (dropClassRun 0 (s.map evClass)))).isEmpty

/-- The claimed ordering, checked on every segment of a trace. -/
def claimedPerDrawOrdered (t : List GLEvent) : Bool :=
  (segments t).all claimedSegOrdered

/-- The ordering the trace actually satisfies: within the segment before a
draw, an optional run of group-level material assignments comes first, then
the transform assignments, then the color/texture assignments, then an
optional run of material assignments — the class word matches the pattern
(material)* (transform)* (color/texture)* (material)*. -/
def actualSegOrdered (s : List GLEvent) : Bool :=
  (dropClassRun 2 (dropClassRun 1 (dropClassRun 0 (dropClassRun 2 (s.map evClass))))).isEmpty

/-- The actual ordering, checked on every segment of a trace. -/
def actualPerDrawOrdered (t : List GLEvent) : Bool :=
  (segments t).all actualSegOrdered

/-- A concrete probe value for the output parameter of `FindMaterial`. -/
noncomputable def probeMaterial : OBJECT_MATERIAL :=
  { ambientColor := (0, 0, 0), ambientStrength := 0,
    diffuseColor := (0, 0, 0), specularColor := (0, 0, 0),
    shininess := 0, tag := "" }

/-- A concrete material with tag `dup`, used to witness first-match lookup. -/
noncomputable def matFirst : OBJECT_MATERIAL :=
  { ambientColor := (1, 2, 3), ambientStrength := 4,
    diffuseColor := (5, 6, 7), specularColor := (8, 9, 10),
    shininess := 11, tag := "dup" }

/-- A second concrete material with the same tag `dup` but different
shading fields. -/
noncomputable def matSecond : OBJECT_MATERIAL :=
  { ambientColor := (20, 21, 22), ambientStrength := 23,
    diffuseColor := (24, 25, 26), specularColor := (27, 28, 29),
    shininess := 30, tag := "dup" }

/-- Helper: the `FindMaterial` scan loop copies the fields of the first
entry found by `List.find?` with the same tag. -/
theorem FindMaterialLoop_eq_of_find? (mats : List OBJECT_MATERIAL)
    (tag : String) (material m : OBJECT_MATERIAL)
    (h : mats.find? (fun mm => decide (mm.tag = tag)) = some m) :
    FindMaterialLoop mats tag material =
      { material with
        ambientColor := m.ambientColor
        ambientStrength := m.ambientStrength
        diffuseColor := m.diffuseColor
        specularColor := m.specularColor
        shininess := m.shininess } := by
  induction mats with
  | nil => simp at h
  | cons hd tl ih =>
    by_cases hhd : hd.tag = tag
    · simp [List.find?, hhd] at h
      subst h
      simp [FindMaterialLoop, hhd]
    · simp [List.find?, hhd] at h
      simpa [FindMaterialLoop, hhd] using ih h

/-- Claim C3: `FindTextureID` scans the loaded entries in insertion order and
returns the ID of the first entry whose tag is an exact match (the result of
`List.find?`), and -1 when no entry matches; and whenever some entry
matches, `FindMaterial` copies into the output parameter the five shading
fields of the first-inserted entry whose tag matches exactly. -/
theorem lookup_first_match :
    (∀ (table : TextureTable) (tag : String),
      FindTextureID table tag =
        (match table.find? (fun e => decide (e.tag = tag)) with
         | some e => e.ID
         | none => -1)) ∧
    (∀ (mats : List OBJECT_MATERIAL) (tag : String)
        (material m : OBJECT_MATERIAL),
      mats.find? (fun mm => decide (mm.tag = tag)) = some m →
      (FindMaterial mats tag material).2 =
        { material with
          ambientColor := m.ambientColor
          ambientStrength := m.ambientStrength
          diffuseColor := m.diffuseColor
          specularColor := m.specularColor
          shininess := m.shininess }) := by
  constructor
  · intro table tag
    induction table with
    | nil => simp [FindTextureID]
    | cons hd tl ih =>
      by_cases hhd : hd.tag = tag
      · simp [FindTextureID, List.find?, hhd]
      · simpa [FindTextureID, List.find?, hhd] using ih
  · intro mats tag material m h
    have hne : mats ≠ [] := by
      intro hnil
      rw [hnil] at h
      simp at h
    have hlen : mats.length ≠ 0 := by
      simpa [List.length_eq_zero] using hne
    simp only [FindMaterial, if_neg hlen]
    exact FindMaterialLoop_eq_of_find? mats tag material m h

/-- Witness for C3 at concrete inputs: a texture table with the duplicated
tag `a` yields the first-inserted ID 5, and a material list with the
duplicated tag `dup` yields the shading fields of the first-inserted entry. -/
theorem lookup_first_match_witness :
    FindTextureID [{ tag := "a", ID := 5 }, { tag := "a", ID := 7 }] "a" = 5 ∧
    (FindMaterial [matFirst, matSecond] "dup" probeMaterial).2 =
      { probeMaterial with
        ambientColor := matFirst.ambientColor
        ambientStrength := matFirst.ambientStrength
        diffuseColor := matFirst.diffuseColor
        specularColor := matFirst.specularColor
        shininess := matFirst.shininess } := by
  constructor
  · have h := lookup_first_match.1
      [{ tag := "a", ID := 5 }, { tag := "a", ID := 7 }] "a"
    simpa using h
  · exact lookup_first_match.2 [matFirst, matSecond] "dup" probeMaterial
      matFirst (by rfl)

/-- Claim C1 (the code bug): with the non-empty material list built by
`DefineObjectMaterials` and the absent tag `missing`, `FindMaterial` returns
`true` — not the `false` the contract requires — because the source ends
with an unconditional `return(true)`; the output parameter is indeed left
unchanged. -/
theorem FindMaterial_true_on_absent_tag :
    (FindMaterial DefineObjectMaterials "missing" probeMaterial).1 = true ∧
    (FindMaterial DefineObjectMaterials "missing" probeMaterial).2 =
      probeMaterial := by
  constructor
  · rfl
  · rfl

/-- Claim C5: `CreateGLTexture` returns `false` exactly when the image fails
to decode or the decoded channel count is neither 3 nor 4; on failure the
texture table is unchanged, and on success exactly one entry carrying the
given tag is appended, so the loaded-texture count grows by one. -/
theorem CreateGLTexture_result_spec (table : TextureTable)
    (decoded : Option Nat) (newID : Int) (tag : String) :
    ((CreateGLTexture table decoded newID tag).1 = false ↔
      decoded = none ∨ ∃ ch, decoded = some ch ∧ ch ≠ 3 ∧ ch ≠ 4) ∧
    ((CreateGLTexture table decoded newID tag).1 = false →
      (CreateGLTexture table decoded newID tag).2 = table) ∧
    ((CreateGLTexture table decoded newID tag).1 = true →
      (CreateGLTexture table decoded newID tag).2 =
          table ++ [{ tag := tag, ID := newID }] ∧
        (CreateGLTexture table decoded newID tag).2.length =
          table.length + 1) := by
  match decoded with
  | none => simp [CreateGLTexture]
  | some ch =>
    by_cases hch : ch = 3 ∨ ch = 4
    · refine ⟨?_, ?_, ?_⟩
      · simp [CreateGLTexture, hch]
        tauto
      · simp [CreateGLTexture, hch]
      · intro _
        simp [CreateGLTexture, hch]
    · refine ⟨?_, ?_, ?_⟩
      · simp [CreateGLTexture, hch]
        tauto
      · simp [CreateGLTexture, hch]
      · simp [CreateGLTexture, hch]

/-- Witness for C5 at a concrete input: loading a 3-channel image with fresh
texture name 7 and tag `pages` into the empty table succeeds and appends
exactly that entry. -/
theorem CreateGLTexture_result_spec_witness :
    (CreateGLTexture [] (some 3) 7 "pages").1 = true ∧
    (CreateGLTexture [] (some 3) 7 "pages").2 =
      [{ tag := "pages", ID := 7 }] := by
  have h := (CreateGLTexture_result_spec [] (some 3) 7 "pages").2.2 (by decide)
  exact ⟨by decide, h.1⟩

/-- Claim C4 (the code bug): `CreateGLTexture` has no capacity check, so 17
successful calls on a freshly constructed `SceneManager` drive
`m_loadedTextures` to 17, exceeding the fixed 16-slot capacity of
`m_textureIDs` (the 17th append writes at index 16, past the array end). -/
theorem CreateGLTexture_overflows_capacity :
    (CreateGLTextureRuns (List.replicate 17 (some 3, 0, "t"))).length = 17 ∧
    16 < (CreateGLTextureRuns (List.replicate 17 (some 3, 0, "t"))).length := by
  constructor
  · decide
  · decide

/-- Claim C9 (the code bug): on a table with one loaded texture,
`DestroyGLTextures` issues a `glGenTextures(1, ...)` call — allocating a
fresh texture name — and no `glDeleteTextures` call at all, so the loaded
textures are never released. -/
theorem DestroyGLTextures_emits_gen_not_delete :
    DestroyGLTextures [{ tag := "pages", ID := 5 }] =
      [GLCall.genTextures 1] := by
  decide

/-- Helper: when no loaded entry has the requested tag, the slot scan of
`FindTextureSlot` falls through and returns -1, for any starting index. -/
theorem FindTextureSlotAux_eq_neg_one (table : TextureTable) (tag : String) :
    (∀ e ∈ table, e.tag ≠ tag) → ∀ index : Int,
      FindTextureSlotAux table tag index = -1 := by
  induction table with
  | nil => intro _ index; rfl
  | cons hd tl ih =>
    intro h index
    have hhd : hd.tag ≠ tag := h hd (by simp)
    have htl : ∀ e ∈ tl, e.tag ≠ tag := fun e he => h e (by simp [he])
    simp [FindTextureSlotAux, hhd]
    exact ih htl (index + 1)

/-- Claim C10: for a tag absent from the texture table, `SetShaderTexture`
still enables texturing: it sets the `bUseTexture` uniform to true and
passes the sentinel slot value -1 as the `objectTexture` sampler. -/
theorem SetShaderTexture_absent_tag (table : TextureTable) (tag : String)
    (habsent : ∀ e ∈ table, e.tag ≠ tag) :
    SetShaderTexture table tag =
      [ShaderCall.setIntValue "bUseTexture" 1,
       ShaderCall.setSampler2DValue "objectTexture" (-1)] := by
  simp [SetShaderTexture, FindTextureSlot]
  exact FindTextureSlotAux_eq_neg_one table tag habsent 0

/-- Witness for C10 at a concrete input: the tag `rubiks` is absent from a
table holding only `pages`, and texturing is still enabled with sampler -1. -/
theorem SetShaderTexture_absent_tag_witness :
    SetShaderTexture [{ tag := "pages", ID := 3 }] "rubiks" =
      [ShaderCall.setIntValue "bUseTexture" 1,
       ShaderCall.setSampler2DValue "objectTexture" (-1)] :=
  SetShaderTexture_absent_tag [{ tag := "pages", ID := 3 }] "rubiks"
    (by decide)

/-- Helper: evaluation of `rotate` at position (1, 0, 0) with angles
(0, 0, 90): the y- and x-steps are identities, leaving the z-step cosine and
sine of the scaled angle. -/
theorem rotate_z90_eval :
    rotate 1 0 0 0 0 90 =
      (Real.cos ((90 : ℝ) * (3.14159 / 180)),
       Real.sin ((90 : ℝ) * (3.14159 / 180)), 0) := by
  simp [rotate, ucRot]

/-- Helper: the scaled source angle for 90 degrees is strictly below π/2, so
its cosine is strictly positive. -/
theorem cos_srcAngle_pos : 0 < Real.cos ((90 : ℝ) * (3.14159 / 180)) := by
  have hang : (90 : ℝ) * (3.14159 / 180) = 1.570795 := by norm_num
  rw [hang]
  have hgt := Real.pi_gt_d6
  have h2 : (0 : ℝ) < Real.pi / 2 - 1.570795 := by linarith
  have h3 : Real.pi / 2 - 1.570795 < Real.pi := by linarith [Real.pi_pos]
  have hcos : Real.cos (1.570795 : ℝ) = Real.sin (Real.pi / 2 - 1.570795) :=
    (Real.sin_pi_div_two_sub (1.570795 : ℝ)).symm
  rw [hcos]
  exact Real.sin_pos_of_pos_of_lt_pi h2 h3

/-- Helper: the cosine of the scaled source angle for 90 degrees is below
the tolerance 0.00001 (it is in fact below 0.0000015). -/
theorem cos_srcAngle_small : Real.cos ((90 : ℝ) * (3.14159 / 180)) < 0.00001 := by
  have hang : (90 : ℝ) * (3.14159 / 180) = 1.570795 := by norm_num
  rw [hang]
  have hgt := Real.pi_gt_d6
  have hlt := Real.pi_lt_d6
  have h2 : (0 : ℝ) < Real.pi / 2 - 1.570795 := by linarith
  have hcos : Real.cos (1.570795 : ℝ) = Real.sin (Real.pi / 2 - 1.570795) :=
    (Real.sin_pi_div_two_sub (1.570795 : ℝ)).symm
  rw [hcos]
  have hs := Real.sin_lt h2
  linarith

/-- Helper: the sine of the scaled source angle for 90 degrees is within
0.00001 of 1 from below. -/
theorem sin_srcAngle_near_one :
    1 - 0.00001 < Real.sin ((90 : ℝ) * (3.14159 / 180)) := by
  have hang : (90 : ℝ) * (3.14159 / 180) = 1.570795 := by norm_num
  rw [hang]
  have hgt := Real.pi_gt_d6
  have hlt := Real.pi_lt_d6
  have h2 : (0 : ℝ) < Real.pi / 2 - 1.570795 := by linarith
  have hu : Real.pi / 2 - 1.570795 < 0.0000015 := by linarith
  have hsin : Real.sin (1.570795 : ℝ) = Real.cos (Real.pi / 2 - 1.570795) :=
    (Real.cos_pi_div_two_sub (1.570795 : ℝ)).symm
  rw [hsin]
  have hb := Real.one_sub_sq_div_two_le_cos (x := Real.pi / 2 - 1.570795)
  nlinarith

/-- Claim C2, counterexample: `rotate` does not agree with the claimed
variant whose degree-to-radian conversion multiplies by π/180; at position
(1, 0, 0) with angles (0, 0, 90) the source constant `3.14159 / 180` gives a
first coordinate `cos 1.570795 > 0`, while the π/180 version gives exactly
0. -/
theorem rotate_differs_from_pi_conversion :
    rotate 1 0 0 0 0 90 ≠ rotateSpecPi 1 0 0 0 0 90 := by
  have hang : (90 : ℝ) * (Real.pi / 180) = Real.pi / 2 := by ring
  have hspec : rotateSpecPi 1 0 0 0 0 90 = ((0 : ℝ), 1, 0) := by
    simp [rotateSpecPi, ucRot, hang, Real.cos_pi_div_two, Real.sin_pi_div_two]
  rw [rotate_z90_eval, hspec]
  intro h
  have h1 : Real.cos ((90 : ℝ) * (3.14159 / 180)) = 0 := congrArg Prod.fst h
  have h2 := cos_srcAngle_pos
  linarith

/-- Claim C2, amended: `rotate` applies, in this order, a planar rotation by
z on the (xPos, yPos) pair, then a planar rotation by the negation of y on
the (xPos, zPos) pair, then a planar rotation by x on the (yPos, zPos) pair
— each a textbook counter-clockwise 2D rotation — with every angle scaled
from degrees by the source constant `3.14159 / 180` (an approximation of
π/180) instead of π/180 itself. -/
theorem rotate_is_composed_planar_rotations (x0 y0 z0 a b c : ℝ) :
    rotate x0 y0 z0 a b c =
      (let q1 := rot2 (c * (3.14159 / 180)) (x0, y0)
       let q2 := rot2 (-(b * (3.14159 / 180))) (q1.1, z0)
       let q3 := rot2 (a * (3.14159 / 180)) (q1.2, q2.2)
       (q2.1, q3.1, q3.2)) := by
  simp only [rotate, rot2, ucRot, Prod.mk.injEq]
  refine ⟨by ring, by ring, by ring⟩

/-- Claim C6: the composite rotation with all three angles zero is the
identity on every position. -/
theorem rotate_zero_angles_identity (x y z : ℝ) :
    rotate x y z 0 0 0 = (x, y, z) := by
  simp [rotate, ucRot]

/-- Claim C7, counterexample: `rotate` at position (1, 0, 0) with angles
(0, 0, 90) does not return exactly (0, 1, 0); the source converts 90 degrees
with the constant `3.14159 / 180`, and `cos 1.570795` is positive, not 0. -/
theorem rotate_z90_not_exact_unit_y :
    rotate 1 0 0 0 0 90 ≠ ((0 : ℝ), (1 : ℝ), (0 : ℝ)) := by
  rw [rotate_z90_eval]
  intro h
  have h1 : Real.cos ((90 : ℝ) * (3.14159 / 180)) = 0 := congrArg Prod.fst h
  have h2 := cos_srcAngle_pos
  linarith

/-- Claim C7, amended: `rotate` at position (1, 0, 0) with angles (0, 0, 90)
returns (cos 1.570795, sin 1.570795, 0), which agrees with (0, 1, 0) to
within 0.00001 in every coordinate. -/
theorem rotate_z90_approx_unit_y :
    rotate 1 0 0 0 0 90 =
      (Real.cos ((90 : ℝ) * (3.14159 / 180)),
       Real.sin ((90 : ℝ) * (3.14159 / 180)), 0) ∧
    |(rotate 1 0 0 0 0 90).1 - 0| < 0.00001 ∧
    |(rotate 1 0 0 0 0 90).2.1 - 1| < 0.00001 ∧
    (rotate 1 0 0 0 0 90).2.2 = 0 := by
  refine ⟨rotate_z90_eval, ?_, ?_, ?_⟩
  · rw [rotate_z90_eval]
    have h1 := cos_srcAngle_pos
    have h2 := cos_srcAngle_small
    rw [show ((Real.cos ((90 : ℝ) * (3.14159 / 180)),
        Real.sin ((90 : ℝ) * (3.14159 / 180)), (0 : ℝ))).1 =
        Real.cos ((90 : ℝ) * (3.14159 / 180)) from rfl]
    rw [sub_zero, abs_of_pos h1]
    exact h2
  · rw [rotate_z90_eval]
    have h1 := sin_srcAngle_near_one
    have h2 := Real.sin_le_one ((90 : ℝ) * (3.14159 / 180))
    rw [show ((Real.cos ((90 : ℝ) * (3.14159 / 180)),
        Real.sin ((90 : ℝ) * (3.14159 / 180)), (0 : ℝ))).2.1 =
        Real.sin ((90 : ℝ) * (3.14159 / 180)) from rfl]
    rw [abs_sub_comm, abs_of_nonneg (by linarith)]
    linarith
  · rw [rotate_z90_eval]

/-- Claim C8, counterexample: the per-draw ordering asserted by the claim —
transform, then color/texture, then material, before every draw — fails on
the `RenderScene` trace: the standalone `SetShaderMaterial
("default_material")` issued after the desk plane lands in the segment of
the first pencil cylinder, where it precedes that shape's transform (and
likewise after the page plane, before the first torus). -/
theorem RenderScene_claimed_order_fails :
    claimedPerDrawOrdered RenderScene = false := by
  decide

/-- Claim C8, amended: `RenderScene` deterministically issues a fixed
sequence with exactly 34 draw calls — 2 planes (desk, page), 5 pencil
cylinders, 1 tapered cylinder, 7 boxes (2 clip, 1 notebook, 4 Rubiks cubes),
1 sphere, 1 cone and 17 tori — and before every draw call the uniform
assignments of its segment follow the pattern: an optional group-level
material assignment first, then the transform, then the color/texture
assignments, then an optional material assignment. -/
theorem RenderScene_trace_spec :
    drawCount RenderScene = 34 ∧
    drawCountOf ShapeKind.plane RenderScene = 2 ∧
    drawCountOf ShapeKind.cylinder RenderScene = 5 ∧
    drawCountOf ShapeKind.taperedCylinder RenderScene = 1 ∧
    drawCountOf ShapeKind.box RenderScene = 7 ∧
    drawCountOf ShapeKind.sphere RenderScene = 1 ∧
    drawCountOf ShapeKind.cone RenderScene = 1 ∧
    drawCountOf ShapeKind.torus RenderScene = 17 ∧
    actualPerDrawOrdered RenderScene = true := by
  refine ⟨?_, ?_, ?_, ?_, ?_, ?_, ?_, ?_, ?_⟩ <;> decide
